import Mathlib

/-!
# DataDispatch — verification of the batch-mail / subscriber-lifecycle core

Shallow embedding of the DataDispatch newsletter platform:

* `Mailer`  — `src/mailer/email_sender.py` (`EmailSender._create_batches`,
  `EmailSender._send_batch`, `EmailSender.send_newsletter`)
* `Backend` — `src/backend/database.py` (`SubscriberDB`, `SendLogDB`)
* `ContentGen` — `src/ai_agent/content_generator.py` (`ContentGenerator`)
* `Orch`    — `src/scripts/weekly_newsletter.py` (`main` and its helpers)

Machine-independent values (timestamps, wall-clock durations) are abstract
`Nat` ticks; Python `float` arithmetic on success rates is modelled with `Rat`
(the source additionally rounds the displayed rate to two decimals, a
presentation detail not modelled).  Network and SMTP effects are modelled by
explicit outcome parameters: each batch transaction either fully succeeds or
raises, exactly the two observable outcomes of `EmailSender._send_batch`.
-/

namespace Mailer

/-- Recursion worker for `createBatches` below.
The Python loop `for i in range(0, len(recipients), batch_size):
batches.append(recipients[i : i + batch_size])` produces the consecutive
slices of length `batch_size`.  A step of `0` would raise `ValueError` in
Python; the sole call site fixes `batch_size = 50` (`self.max_batch_size`),
so the `0` case is unreachable and modelled as `[]`. -/
def createBatchesAux : Nat → List String → Nat → List (List String)
  | _, [], _ => []
  | _, _ :: _, 0 => []
  | 0, _ :: _, _ + 1 => []
  | fuel + 1, r :: rs, b + 1 =>
    (r :: rs.take b) :: createBatchesAux fuel (rs.drop b) (b + 1)

/-- Model of `EmailSender._create_batches` (email_sender.py:101-108).
The recursion of the worker is driven by a fuel counter initialised to
`recipients.length`, which can never run out because every iteration
consumes at least one recipient (so the `fuel = 0` branch with recipients
left is unreachable). -/
def createBatches (recipients : List String) (batchSize : Nat) : List (List String) :=
  createBatchesAux recipients.length recipients batchSize

/-- The per-batch outcome dictionary of `EmailSender._send_batch`
(email_sender.py:110-154). -/
structure BatchResult where
  sent : Nat
  failed : Nat
  failed_emails : List String
deriving Repr, DecidableEq

/-- Model of `EmailSender._send_batch` (email_sender.py:110-154).  The whole SMTP
transaction sits in one `try`; its only two observable outcomes are the two
returned dictionaries: on success `{"sent": len(recipients), "failed": 0,
"failed_emails": []}`, on any exception `{"sent": 0, "failed":
len(recipients), "failed_emails": recipients}`.  `ok` is the verdict of the
environment on whether the transaction raised.  The message construction and the
`{{UNSUBSCRIBE_LINK}}` substitution do not influence the returned counts and
are not modelled. -/
def sendBatch (ok : Bool) (recipients : List String) : BatchResult :=
  if ok then { sent := recipients.length, failed := 0, failed_emails := [] }
  else { sent := 0, failed := recipients.length, failed_emails := recipients }

/-- The accumulation loop of `EmailSender.send_newsletter`
(email_sender.py:56-75): iterate over the enumerated batches, adding each
per-batch `sent`/`failed` counts and appending the per-batch
`failed_emails`.  The outer `except` branch (lines 72-75) adds `len(batch)`
to `failed` and extends `failed_emails` with the whole batch — exactly what
the failure dictionary of `_send_batch` itself contributes, so a single `outcome` bit per batch index
covers both paths.  The `time.sleep(2)` rate-limit delay has no effect on the
statistics. -/
def sendLoop (outcome : Nat → Bool) : Nat → List (List String) → Nat × Nat × List String
  | _, [] => (0, 0, [])
  | i, batch :: rest =>
    let r := sendBatch (outcome i) batch
    let acc := sendLoop outcome (i + 1) rest
    (r.sent + acc.1, r.failed + acc.2.1, r.failed_emails ++ acc.2.2)

/-- The statistics dictionary returned by `EmailSender.send_newsletter`
(email_sender.py:83-91).  `total_time_seconds` is wall-clock time and is not
modelled; `success_rate` is kept as an exact rational (the source rounds the
float to two decimals for display). -/
structure RunStats where
  total_recipients : Nat
  sent : Nat
  failed : Nat
  success_rate : Rat
  failed_emails : List String
  batches_processed : Nat

/-- Model of `EmailSender.send_newsletter` (email_sender.py:27-99): split the
recipients into batches of `self.max_batch_size = 50`, run the batch loop,
and assemble the statistics with
`success_rate = (total_sent / len(recipients)) * 100 if recipients else 0`.
`subject`, `html_content` and `unsubscribe_base_url` only shape the message
body, not the statistics, and are omitted. -/
def sendNewsletter (outcome : Nat → Bool) (recipients : List String) : RunStats :=
  let batches := createBatches recipients 50
  let acc := sendLoop outcome 0 batches
  { total_recipients := recipients.length
    sent := acc.1
    failed := acc.2.1
    success_rate :=
      if recipients.isEmpty then 0
      else ((acc.1 : Rat) / (recipients.length : Rat)) * 100
    failed_emails := acc.2.2
    batches_processed := batches.length }

/-- The concrete scenario of the spec: 120 syntactically plausible addresses. -/
def recipients120 : List String :=
  (List.range 120).map (fun k => "user" ++ toString k ++ "@example.com")

/-- The transport environment of the scenario: the send of batch 2 (index 1)
raises a connection error; batches 1 and 3 succeed. -/
def scenarioOutcome : Nat → Bool := fun i => i != 1

end Mailer

/-!
## Python string primitives

Executable models of the Python `str` operations the source relies on.  They
are written by structural recursion over the character list of the string
(with a fuel counter initialised to the string length where the scan skips a
matched pattern) so that every concrete instance evaluates inside the
kernel.  All patterns passed to them in this code base are non-empty, and
the only characters involved in the proved statements are ASCII (where
`Char.toLower` agrees with the full-Unicode `str.lower`, and
`Char.isWhitespace` with `str.strip`).
-/

/-- Helper: does `pat` occur at the head of `s`? -/
def isPrefixList : List Char → List Char → Bool
  | [], _ => true
  | _ :: _, [] => false
  | p :: ps, c :: cs => p == c && isPrefixList ps cs

/-- Membership test of Python on strings: `pat in s`. -/
def containsList (pat : List Char) : List Char → Bool
  | [] => isPrefixList pat []
  | c :: cs => isPrefixList pat (c :: cs) || containsList pat cs

/-- Membership test of Python on strings, on `String`. -/
def containsSub (s pat : String) : Bool := containsList pat.data s.data

/-- Scan of `str.replace` for a non-empty pattern: at each position, if the
pattern matches, emit the replacement and skip the pattern, else keep the
character and advance one. -/
def replaceListAux (pat repl : List Char) : Nat → List Char → List Char
  | _, [] => []
  | 0, s => s
  | fuel + 1, c :: cs =>
    if isPrefixList pat (c :: cs) then
      repl ++ replaceListAux pat repl fuel ((c :: cs).drop pat.length)
    else
      c :: replaceListAux pat repl fuel cs

/-- Model of `str.replace` (all occurrences, non-empty pattern). -/
def pyReplace (s pat repl : String) : String :=
  ⟨replaceListAux pat.data repl.data s.data.length s.data⟩

/-- Scan of `str.split(sep)` for a non-empty separator. -/
def splitListAux (pat : List Char) : Nat → List Char → List Char → List (List Char)
  | _, [], acc => [acc.reverse]
  | 0, s, acc => [acc.reverse ++ s]
  | fuel + 1, c :: cs, acc =>
    if isPrefixList pat (c :: cs) then
      acc.reverse :: splitListAux pat fuel ((c :: cs).drop pat.length) []
    else
      splitListAux pat fuel cs (c :: acc)

/-- Model of `str.split(sep)` for a non-empty separator (keeps empty
parts, like Python). -/
def pySplit (s pat : String) : List String :=
  (splitListAux pat.data s.data.length s.data []).map (fun cs => ⟨cs⟩)

/-- Model of `str.strip()`: drop whitespace from both ends. -/
def pyStrip (s : String) : String :=
  ⟨((s.data.dropWhile Char.isWhitespace).reverse.dropWhile Char.isWhitespace).reverse⟩

/-- Model of `str.lower()` (ASCII case folding). -/
def pyLower (s : String) : String := ⟨s.data.map Char.toLower⟩

/-- Model of the slice `s[:n]`. -/
def pyTake (s : String) (n : Nat) : String := ⟨s.data.take n⟩

namespace ContentGen

/-!
Strings below are the verbatim constants of `src/ai_agent/prompts.py` and
`src/ai_agent/content_generator.py` (the source files contain mojibake emoji
such as `ğŸš€`; they are reproduced byte-for-byte).  `HTML_EMAIL_TEMPLATE`
is represented by its four literal segments around the `format` placeholders,
which occur in the order `subject`, `subject`, `content_sections`; running
`str.format` on this template is exactly the interposition of the arguments
between the segments, with `\x7b\x7b`/`\x7d\x7d` unescaped to literal braces.
-/

def HTML_EMAIL_TEMPLATE_seg1 : String :=
  "\n<!DOCTYPE html>\n<html lang=\"en\">\n<head>\n    <meta charset=\"UTF-8\">\n    <meta name=\"viewport\" content=\"width=device-width, initial-scale=1.0\">\n    <title>"

def HTML_EMAIL_TEMPLATE_seg2 : String :=
  "</title>\n    <style>\n        body \x7b margin: 0; padding: 0; font-family: -apple-system, BlinkMacSystemFont, \x27Segoe UI\x27, system-ui, sans-serif; background-color: #ffffff; color: #374151; \x7d\n        .container \x7b max-width: 580px; margin: 0 auto; padding: 40px 20px; \x7d\n        .header \x7b margin-bottom: 40px; padding-bottom: 20px; border-bottom: 1px solid #e5e7eb; \x7d\n        .logo \x7b font-size: 20px; font-weight: 700; color: #111827; margin: 0; letter-spacing: -0.025em; \x7d\n        .subject \x7b font-size: 14px; color: #6b7280; margin: 8px 0 0 0; font-weight: 400; \x7d\n        .content \x7b line-height: 1.7; \x7d\n        .section \x7b margin-bottom: 36px; \x7d\n        .section-title \x7b font-size: 16px; font-weight: 600; color: #111827; margin: 0 0 16px 0; \x7d\n        .item \x7b margin-bottom: 24px; \x7d\n        .item-title \x7b font-size: 15px; font-weight: 500; color: #111827; margin: 0 0 6px 0; \x7d\n        .item-description \x7b font-size: 14px; color: #4b5563; line-height: 1.6; margin: 0; \x7d\n        .link \x7b color: #2563eb; text-decoration: none; border-bottom: 1px solid transparent; \x7d\n        .link:hover \x7b border-bottom-color: #2563eb; \x7d\n        .divider \x7b height: 1px; background-color: #f3f4f6; margin: 32px 0; border: none; \x7d\n        .footer \x7b margin-top: 48px; padding-top: 24px; border-top: 1px solid #e5e7eb; text-align: center; \x7d\n        .footer-content \x7b font-size: 13px; color: #6b7280; line-height: 1.5; \x7d\n        .footer-brand \x7b font-weight: 600; color: #111827; \x7d\n        .footer-links \x7b margin-top: 16px; \x7d\n        .footer-links a \x7b color: #6b7280; text-decoration: none; font-size: 13px; margin: 0 8px; \x7d\n        .footer-links a:hover \x7b color: #374151; \x7d\n        .footer-note \x7b margin-top: 16px; font-size: 12px; color: #9ca3af; \x7d\n        @media only screen and (max-width: 600px) \x7b\n            .container \x7b padding: 24px 16px; \x7d\n            .section \x7b margin-bottom: 28px; \x7d\n            .item \x7b margin-bottom: 20px; \x7d\n        \x7d\n    </style>\n</head>\n<body>\n    <div class=\"container\">\n        <div class=\"header\">\n            <h1 class=\"logo\">DataDispatch</h1>\n            <p class=\"subject\">"

def HTML_EMAIL_TEMPLATE_seg3 : String :=
  "</p>\n        </div>\n        \n        <div class=\"content\">\n            "

def HTML_EMAIL_TEMPLATE_seg4 : String :=
  "\n        </div>\n        \n        <div class=\"footer\">\n            <div class=\"footer-content\">\n                <p class=\"footer-brand\">DataDispatch</p>\n                <p>Curated insights for developers and tech professionals</p>\n            </div>\n            <div class=\"footer-links\">\n                <a href=\"\x7b\x7bUNSUBSCRIBE_LINK\x7d\x7d\">Unsubscribe</a>\n                <a href=\"mailto:contact@datadispatch.com\">Contact</a>\n            </div>\n            <div class=\"footer-note\">\n                <p>You received this email because you subscribed to our newsletter.</p>\n            </div>\n        </div>\n    </div>\n</body>\n</html>\n"

def SAMPLE_NEWSLETTER_CONTENT_subject : String :=
  "AI Breakthroughs & Dev Tools You Need This Week"

def SAMPLE_NEWSLETTER_CONTENT_html : String :=
  "\n    <div class=\"section\">\n        <h2 class=\"section-title\">This Week\x27s Highlights</h2>\n        <div class=\"item\">\n            <div class=\"item-title\">GPT-4 Turbo with Enhanced Vision</div>\n            <div class=\"item-description\">\n                OpenAI released GPT-4 Turbo with improved vision capabilities and reduced costs. \n                Ideal for developers building multimodal applications.\n                <a href=\"#\" class=\"link\">Learn more</a>\n            </div>\n        </div>\n        <div class=\"item\">\n            <div class=\"item-title\">React 18.3 Performance Updates</div>\n            <div class=\"item-description\">\n                Latest React update introduces performance improvements and experimental hooks \n                for enhanced state management.\n                <a href=\"#\" class=\"link\">View changelog</a>\n            </div>\n        </div>\n    </div>\n    \n    <hr class=\"divider\">\n    \n    <div class=\"section\">\n        <h2 class=\"section-title\">Tools & Resources</h2>\n        <div class=\"item\">\n            <div class=\"item-title\">Cursor AI Code Editor</div>\n            <div class=\"item-description\">\n                VS Code alternative with integrated AI assistance for faster development. \n                Free for personal use with GitHub Copilot support.\n                <a href=\"#\" class=\"link\">Try it free</a>\n            </div>\n        </div>\n        <div class=\"item\">\n            <div class=\"item-title\">shadcn/ui Component Library</div>\n            <div class=\"item-description\">\n                Copy-paste React components built with Tailwind CSS and Radix UI. \n                Perfect for rapid prototyping and consistent design.\n                <a href=\"#\" class=\"link\">Browse components</a>\n            </div>\n        </div>\n    </div>\n    \n    <hr class=\"divider\">\n    \n    <div class=\"section\">\n        <h2 class=\"section-title\">Learning</h2>\n        <div class=\"item\">\n            <div class=\"item-title\">System Design Interview Guide 2024</div>\n            <div class=\"item-description\">\n                Comprehensive guide covering scalability, databases, caching, and microservices \n                with practical examples from leading tech companies.\n                <a href=\"#\" class=\"link\">Read guide</a>\n            </div>\n        </div>\n    </div>\n    \n    <hr class=\"divider\">\n    \n    <div class=\"section\">\n        <h2 class=\"section-title\">Quick Tips</h2>\n        <div class=\"item\">\n            <div class=\"item-title\">Optimize Docker Build Performance</div>\n            <div class=\"item-description\">\n                Use multi-stage builds and .dockerignore to reduce build times by up to 50%. \n                Essential optimization every developer should implement.\n                <a href=\"#\" class=\"link\">View examples</a>\n            </div>\n        </div>\n    </div>\n    "

def extract_html_pre : String :=
  "\n        <div class=\"section\">\n            <h2 class=\"section-title\">ğŸ“ This Week\x27s Update</h2>\n            <div class=\"section-content\">\n                <div class=\"item\">\n                    <div class=\"item-description\">\n                        "

def extract_html_post : String :=
  "\n                    </div>\n                </div>\n            </div>\n        </div>\n        "

/-- The `{subject, html}` dictionary flowing out of
`ContentGenerator.generate_newsletter_content`; every return path of the
source produces a dict with both keys present. -/
structure NewsletterContent where
  subject : String
  html : String
deriving Repr, DecidableEq

/-- Model of `ContentGenerator._wrap_in_email_template` (content_generator.py:165-170):
`HTML_EMAIL_TEMPLATE.format(subject=subject, content_sections=content)`. -/
def wrap_in_email_template (subject content : String) : String :=
  HTML_EMAIL_TEMPLATE_seg1 ++ subject ++ HTML_EMAIL_TEMPLATE_seg2 ++ subject
    ++ HTML_EMAIL_TEMPLATE_seg3 ++ content ++ HTML_EMAIL_TEMPLATE_seg4

/-- Model of `ContentGenerator._get_fallback_content` (content_generator.py:203-212):
copy the sample content, overwrite the subject with
`f"ğŸš€ Tech Update for {current_date}"`, and wrap the sample HTML in the
email template under that subject. -/
def get_fallback_content (current_date : String) : NewsletterContent :=
  let subject := "ğŸš€ Tech Update for " ++ current_date
  { subject := subject
    html := wrap_in_email_template subject SAMPLE_NEWSLETTER_CONTENT_html }

/-- Model of `ContentGenerator._extract_content_from_text`
(content_generator.py:172-201): scan the lines for the first one containing
one of `subject:`, `title:`, `ğŸš€`, `ğŸ“§` (lower-cased comparison; the
keywords that matter here are pure ASCII, where `String.toLower` of Lean
agrees with `str.lower` of Python), derive the subject from it, and use the
whole text as the body.  Keeps the source operation order: replace
`Subject:` with the empty string, then `Title:`, then strip, then keep the
first 60 characters. -/
def extract_content_from_text (text : String) : NewsletterContent :=
  let lines := pySplit text "\n"
  let subject :=
    match lines.find? (fun line =>
        containsSub (pyLower line) "subject:" || containsSub (pyLower line) "title:" ||
        containsSub (pyLower line) "ğŸš€" || containsSub (pyLower line) "ğŸ“§") with
    | some line => pyTake (pyStrip (pyReplace (pyReplace line "Subject:" "") "Title:" "")) 60
    | none => "ğŸš€ Weekly AI & Tech Update"
  let html_content := extract_html_pre ++ pyReplace text "\n" "<br>" ++ extract_html_post
  { subject := subject, html := wrap_in_email_template subject html_content }

/-- The observable behaviours of the default (Ollama) generation backend as
seen by `_generate_with_ollama` (content_generator.py:102-163).  Each
constructor names a concrete runtime scenario; the JSON decoding done by the
`requests`/`json` libraries is part of the environment:

* `unreachable` — `requests.post` raises a `RequestException`;
* `httpStatus`  — HTTP status ≠ 200 (an `Exception` is raised and caught by
  the generic handler);
* `bodyNotJson` — status 200 but `response.json()` raises;
* `contentNotJson c` — status 200, body parses, but the stripped `response`
  field `c` is not valid JSON (`json.loads` raises `JSONDecodeError`);
* `contentJson hs hh s h` — the `response` field is valid JSON: `hs`/`hh`
  say whether the parsed object has the `subject`/`html` keys, `s`/`h` are
  their values. -/
inductive BackendBehaviour where
  | unreachable
  | httpStatus (code : Nat)
  | bodyNotJson
  | contentNotJson (content : String)
  | contentJson (hasSubject hasHtml : Bool) (subject html : String)

/-- Model of `ContentGenerator.generate_newsletter_content` (content_generator.py:45-58)
through `_generate_with_ollama` (the default provider when `AI_PROVIDER` is
unset).  Connection errors, non-200 statuses, unparseable response bodies and
objects missing a required key (the `raise ValueError` at line 149 escapes the
inner `except json.JSONDecodeError` and is caught by the generic handler) all
fall back to `_get_fallback_content`; a 200 response whose `response` field is
not itself JSON goes through `_extract_content_from_text`. -/
def generate_newsletter_content (b : BackendBehaviour) (current_date : String) :
    NewsletterContent :=
  match b with
  | .unreachable => get_fallback_content current_date
  | .httpStatus _ => get_fallback_content current_date
  | .bodyNotJson => get_fallback_content current_date
  | .contentNotJson content => extract_content_from_text content
  | .contentJson hasSubject hasHtml subject html =>
    if hasSubject && hasHtml then
      { subject := subject, html := wrap_in_email_template subject html }
    else get_fallback_content current_date

end ContentGen

namespace Backend

/-- A row of the `subscribers` table (database.py:32-45).  `id` plays no role
in the verified properties; timestamps are abstract ticks (the `now`
arguments stand for `datetime.utcnow()`). -/
structure SubscriberRow where
  email : String
  status : String
  created_at : Nat
  updated_at : Nat
deriving Repr, DecidableEq

/-- Model of `SubscriberDB.get_subscriber_by_email` (database.py:102-104):
`.filter(Subscriber.email == email).first()`, the first row matching the
email (the `email` column carries a unique index, so at most one matches). -/
def get_subscriber_by_email (db : List SubscriberRow) (email : String) :
    Option SubscriberRow :=
  db.find? (fun r => r.email == email)

/-- In-place mutation of the ORM object returned by the query: rewrite the
first row carrying the given email. -/
def updateFirst (f : SubscriberRow → SubscriberRow) :
    List SubscriberRow → String → List SubscriberRow
  | [], _ => []
  | r :: rest, email =>
    if r.email == email then f r :: rest else r :: updateFirst f rest email

/-- Model of `SubscriberDB.create_subscriber` (database.py:81-100): an
existing row with a status other than `unsubscribed` raises
`ValueError("Email already subscribed")`; an `unsubscribed` row is
reactivated in place (status back to `active`, `updated_at` refreshed) and
returned; otherwise a fresh `active` row is appended.  The result pairs the
new table state with the returned row. -/
def create_subscriber (db : List SubscriberRow) (email : String) (now : Nat) :
    Except String (List SubscriberRow × SubscriberRow) :=
  match get_subscriber_by_email db email with
  | some existing =>
    if existing.status == "unsubscribed" then
      .ok (updateFirst (fun r => { r with status := "active", updated_at := now }) db email,
           { existing with status := "active", updated_at := now })
    else .error "Email already subscribed"
  | none =>
    .ok (db ++ [{ email := email, status := "active", created_at := now, updated_at := now }],
         { email := email, status := "active", created_at := now, updated_at := now })

/-- Model of `SubscriberDB.unsubscribe_subscriber` (database.py:106-118):
no row raises `ValueError("Email not found in subscriber list")`, an already
`unsubscribed` row raises `ValueError("Email already unsubscribed")`,
otherwise the row status flips to `unsubscribed` with `updated_at`
refreshed. -/
def unsubscribe_subscriber (db : List SubscriberRow) (email : String) (now : Nat) :
    Except String (List SubscriberRow) :=
  match get_subscriber_by_email db email with
  | none => .error "Email not found in subscriber list"
  | some subscriber =>
    if subscriber.status == "unsubscribed" then .error "Email already unsubscribed"
    else .ok (updateFirst (fun r => { r with status := "unsubscribed", updated_at := now }) db email)

/-- The dictionary returned by `SubscriberDB.get_subscriber_count`
(database.py:124-140). -/
structure SubscriberCounts where
  active : Nat
  total : Nat
  unsubscribed : Nat
deriving Repr, DecidableEq

/-- Model of `SubscriberDB.get_subscriber_count` (database.py:124-140). -/
def get_subscriber_count (db : List SubscriberRow) : SubscriberCounts :=
  { active := (db.filter (fun r => r.status == "active")).length
    total := db.length
    unsubscribed := (db.filter (fun r => r.status == "unsubscribed")).length }

/-- One API operation against the subscriber store: the two mutating
endpoints of `SubscriberDB`. -/
inductive StoreOp where
  | create (email : String) (now : Nat)
  | unsub (email : String) (now : Nat)

/-- Application of one operation to the store.  A raised `ValueError` leaves
the table untouched (both failing paths in database.py raise before any
mutation), so the error case keeps the state. -/
def applyOp (db : List SubscriberRow) : StoreOp → List SubscriberRow
  | .create email now =>
    match create_subscriber db email now with
    | .ok (db2, _) => db2
    | .error _ => db
  | .unsub email now =>
    match unsubscribe_subscriber db email now with
    | .ok db2 => db2
    | .error _ => db

/-- The store state reached from the empty table by a sequence of
operations. -/
def runOps (ops : List StoreOp) : List SubscriberRow :=
  ops.foldl applyOp []

/-- Every row status is one of the two legal literals. -/
def statusOk (db : List SubscriberRow) : Prop :=
  ∀ r ∈ db, r.status = "active" ∨ r.status = "unsubscribed"

/-- A row of the `send_logs` table (database.py:48-59); `id` and `date` play
no role in the verified properties. -/
structure SendLogRow where
  sent_count : Nat
  failures : Nat
  latency_ms : Nat
  error_details : Option String
  newsletter_subject : Option String
deriving Repr, DecidableEq

/-- Model of `SendLogDB.create_send_log` (database.py:147-166): a pure
append of one row. -/
def create_send_log (logs : List SendLogRow) (sent_count failures latency_ms : Nat)
    (error_details newsletter_subject : Option String) : List SendLogRow :=
  logs ++ [{ sent_count := sent_count, failures := failures, latency_ms := latency_ms,
             error_details := error_details, newsletter_subject := newsletter_subject }]

/-- The dictionary returned by `SendLogDB.get_send_statistics`
(database.py:172-198). -/
structure SendStatistics where
  total_sent : Nat
  total_failures : Nat
  average_latency : Rat
  success_rate : Rat
deriving Repr, DecidableEq

/-- Model of `SendLogDB.get_send_statistics` (database.py:172-198).  The
source rounds `average_latency` and `success_rate` for display; the model
keeps the exact rationals. -/
def get_send_statistics (logs : List SendLogRow) : SendStatistics :=
  if logs.isEmpty then
    { total_sent := 0, total_failures := 0, average_latency := 0, success_rate := 0 }
  else
    let total_sent : Nat := (logs.map (fun log => log.sent_count)).sum
    let total_failures : Nat := (logs.map (fun log => log.failures)).sum
    let latency_sum : Nat := (logs.map (fun log => log.latency_ms)).sum
    { total_sent := total_sent
      total_failures := total_failures
      average_latency := (latency_sum : Rat) / (logs.length : Rat)
      success_rate :=
        if 0 < total_sent + total_failures then
          ((total_sent : Rat) / ((total_sent + total_failures : Nat) : Rat)) * 100
        else 0 }

end Backend

namespace Orch

open Backend

/-- The environment of one `main()` run (weekly_newsletter.py:146-243): which
credentials are configured, and the outcomes of the three fallible stages
(the underlying store query, the content generation call, the mailer run).
`Except.error` carries the message of the exception the corresponding stage
raises. -/
structure OrchEnv where
  smtp_email_set : Bool
  smtp_password_set : Bool
  fetch_outcome : Except String (List String)
  content_outcome : Except String (String × String)
  send_outcome : Except String Mailer.RunStats

/-- Model of `validate_environment` (weekly_newsletter.py:131-143): collect
the missing variable names in order and raise listing them. -/
def validate_environment (env : OrchEnv) : Except String Unit :=
  let missing := (if env.smtp_email_set then [] else ["SMTP_EMAIL"])
              ++ (if env.smtp_password_set then [] else ["SMTP_PASSWORD"])
  if missing.isEmpty then .ok ()
  else .error ("Missing required environment variables: " ++ String.intercalate ", " missing)

/-- Model of `get_active_subscribers` (weekly_newsletter.py:69-77): re-wrap
any exception from the store query. -/
def get_active_subscribers (r : Except String (List String)) : Except String (List String) :=
  match r with
  | .ok subs => .ok subs
  | .error e => .error ("Failed to fetch subscribers: " ++ e)

/-- Model of the script-level `generate_newsletter_content`
(weekly_newsletter.py:80-91): a `(subject, html)` pair with a falsy (empty)
component raises, and every exception is re-wrapped; the inner raise is
itself caught and re-wrapped by the same handler. -/
def generate_content_step (r : Except String (String × String)) :
    Except String (String × String) :=
  match r with
  | .ok c =>
    if c.1 = "" || c.2 = "" then
      .error "Failed to generate content: Generated content is missing subject or HTML"
    else .ok c
  | .error e => .error ("Failed to generate content: " ++ e)

/-- Model of `send_newsletter_to_subscribers` (weekly_newsletter.py:94-112):
re-wrap any exception from the mailer (including the `ValueError` that
`EmailSender.__init__` raises on missing credentials). -/
def send_step (r : Except String Mailer.RunStats) : Except String Mailer.RunStats :=
  match r with
  | .ok stats => .ok stats
  | .error e => .error ("Failed to send newsletter: " ++ e)

/-- The observable outcome of one `main()` run: the rows appended to
`send_logs` and the process exit status (0 for a plain return, 1 for
`sys.exit(1)`). -/
structure MainResult where
  logs : List SendLogRow
  exitCode : Nat
deriving Repr, DecidableEq

/-- The failure row persisted by the exception handler of `main`
(weekly_newsletter.py:230-238): `log_sending_statistics` is called with
`stats = \x7b"sent": 0, "failed": 0, "total_time_seconds": 0\x7d`, subject
`"Newsletter Generation Failed"` and the exception message as
`error_details`, which `SendLogDB.create_send_log` stores verbatim. -/
def failure_log (e : String) : SendLogRow :=
  { sent_count := 0, failures := 0, latency_ms := 0,
    error_details := some e, newsletter_subject := some "Newsletter Generation Failed" }

/-- The success row persisted at weekly_newsletter.py:196-206:
`log_sending_statistics` with the mailer statistics, the generated subject,
and a synthesized "Failed emails: ..." detail string when any address
failed.  `latency` abstracts `int(total_time_seconds * 1000)`. -/
def success_log (stats : Mailer.RunStats) (subject : String) (latency : Nat) : SendLogRow :=
  { sent_count := stats.sent, failures := stats.failed, latency_ms := latency,
    error_details :=
      if stats.failed_emails.isEmpty then none
      else some ("Failed emails: " ++ String.intercalate ", " stats.failed_emails),
    newsletter_subject := some subject }

/-- Model of `main` (weekly_newsletter.py:146-243) on an initially empty
`send_logs` table.  Steps in source order: validate configuration, fetch the
active subscribers (an empty list returns successfully without logging),
generate content, send, then log.  Any step failure falls into the
`except` handler, which persists the zero-sent failure row (the model
assumes the store accepts the write; the source swallows database errors at
this point) and exits with status 1. -/
def main_run (env : OrchEnv) (latency : Nat) : MainResult :=
  match validate_environment env with
  | .error e => { logs := [failure_log e], exitCode := 1 }
  | .ok _ =>
    match get_active_subscribers env.fetch_outcome with
    | .error e => { logs := [failure_log e], exitCode := 1 }
    | .ok recipients =>
      if recipients.isEmpty then { logs := [], exitCode := 0 }
      else
        match generate_content_step env.content_outcome with
        | .error e => { logs := [failure_log e], exitCode := 1 }
        | .ok content =>
          match send_step env.send_outcome with
          | .error e => { logs := [failure_log e], exitCode := 1 }
          | .ok stats =>
            { logs := [success_log stats content.1 latency], exitCode := 0 }

end Orch

/-!
## Theorems

The claim theorems (with their witnesses and counterexamples) and the
supporting lemmas, over the definitions above.
-/

namespace Mailer

theorem createBatchesAux_join (b : Nat) :
    ∀ (fuel : Nat) (rs : List String), rs.length ≤ fuel →
      (createBatchesAux fuel rs (b + 1)).flatten = rs := by
  intro fuel
  induction fuel with
  | zero =>
    intro rs h
    have : rs = [] := List.eq_nil_of_length_eq_zero (Nat.le_zero.mp h)
    subst this
    simp [createBatchesAux]
  | succ n ih =>
    intro rs h
    match rs with
    | [] => simp [createBatchesAux]
    | r :: rs =>
      rw [createBatchesAux]
      have hlen : (rs.drop b).length ≤ n := by
        simp only [List.length_drop]
        simp only [List.length_cons] at h
        omega
      simp only [List.flatten_cons, ih (rs.drop b) hlen, List.cons_append]
      rw [List.take_append_drop]

theorem createBatches_join (rs : List String) (b : Nat) :
    (createBatches rs (b + 1)).flatten = rs :=
  createBatchesAux_join b rs.length rs le_rfl

theorem createBatchesAux_sizes (b : Nat) :
    ∀ (fuel : Nat) (rs : List String), rs.length ≤ fuel →
      ∀ batch ∈ createBatchesAux fuel rs (b + 1), batch.length ≤ b + 1 := by
  intro fuel
  induction fuel with
  | zero =>
    intro rs h
    have : rs = [] := List.eq_nil_of_length_eq_zero (Nat.le_zero.mp h)
    subst this
    simp [createBatchesAux]
  | succ n ih =>
    intro rs h batch hb
    match rs with
    | [] => simp [createBatchesAux] at hb
    | r :: rs =>
      rw [createBatchesAux] at hb
      rcases List.mem_cons.mp hb with h1 | h2
      · subst h1
        simp only [List.length_cons, List.length_take]
        omega
      · exact ih (rs.drop b) (by simp only [List.length_drop]; simp only [List.length_cons] at h; omega) batch h2

theorem createBatchesAux_count (b : Nat) :
    ∀ (fuel : Nat) (rs : List String), rs.length ≤ fuel →
      (createBatchesAux fuel rs (b + 1)).length = (rs.length + b) / (b + 1) := by
  intro fuel
  induction fuel with
  | zero =>
    intro rs h
    have : rs = [] := List.eq_nil_of_length_eq_zero (Nat.le_zero.mp h)
    subst this
    simp [createBatchesAux, Nat.div_eq_of_lt (Nat.lt_succ_self b)]
  | succ n ih =>
    intro rs h
    match rs with
    | [] => simp [createBatchesAux, Nat.div_eq_of_lt (Nat.lt_succ_self b)]
    | r :: rs =>
      rw [createBatchesAux]
      have hlen : (rs.drop b).length ≤ n := by
        simp only [List.length_drop]
        simp only [List.length_cons] at h
        omega
      simp only [List.length_cons, ih (rs.drop b) hlen, List.length_drop]
      rcases Nat.le_total b rs.length with hble | hlt
      · have h1 : rs.length - b + b = rs.length := Nat.sub_add_cancel hble
        have h2 : rs.length + 1 + b = rs.length + (b + 1) := by omega
        rw [h1, h2, Nat.add_div_right _ (Nat.succ_pos b)]
      · have h1 : rs.length - b = 0 := Nat.sub_eq_zero_of_le hlt
        rw [h1, Nat.zero_add, Nat.div_eq_of_lt (Nat.lt_succ_self b)]
        have h2 : (rs.length + 1 + b) / (b + 1) = 1 := by
          apply Nat.div_eq_of_lt_le
          · omega
          · omega
        omega

/-- The in-order batch slices, sizes and batch count of `_create_batches`
with the fixed batch size 50, as the spec states them. -/
theorem createBatches_partitions (rs : List String) :
    (createBatches rs 50).length = (rs.length + 49) / 50 ∧
    (createBatches rs 50).flatten = rs ∧
    (∀ batch ∈ createBatches rs 50, batch.length ≤ 50) ∧
    (rs.Nodup → (createBatches rs 50).Pairwise List.Disjoint) := by
  refine ⟨createBatchesAux_count 49 rs.length rs le_rfl,
          createBatches_join rs 49,
          createBatchesAux_sizes 49 rs.length rs le_rfl, ?_⟩
  intro hnd
  have hjoin : (createBatches rs 50).flatten = rs := createBatches_join rs 49
  have : (createBatches rs 50).flatten.Nodup := by rw [hjoin]; exact hnd
  exact (List.nodup_flatten.mp this).2

theorem createBatches_partitions_witness :
    (createBatches ["a@x.com", "b@x.com", "c@x.com"] 50).length = (3 + 49) / 50 ∧
    (createBatches ["a@x.com", "b@x.com", "c@x.com"] 50).flatten
        = ["a@x.com", "b@x.com", "c@x.com"] ∧
    (createBatches ["a@x.com", "b@x.com", "c@x.com"] 50).Pairwise List.Disjoint :=
  ⟨(createBatches_partitions ["a@x.com", "b@x.com", "c@x.com"]).1,
   (createBatches_partitions ["a@x.com", "b@x.com", "c@x.com"]).2.1,
   (createBatches_partitions ["a@x.com", "b@x.com", "c@x.com"]).2.2.2 (by decide)⟩

theorem sendBatch_total (ok : Bool) (recipients : List String) :
    (sendBatch ok recipients).sent + (sendBatch ok recipients).failed
      = recipients.length := by
  cases ok <;> simp [sendBatch]

theorem sendLoop_total (outcome : Nat → Bool) (bs : List (List String)) :
    ∀ i, (sendLoop outcome i bs).1 + (sendLoop outcome i bs).2.1
      = (bs.map List.length).sum := by
  induction bs with
  | nil => intro i; simp [sendLoop]
  | cons batch rest ih =>
    intro i
    have hbatch := sendBatch_total (outcome i) batch
    have hrest := ih (i + 1)
    simp only [sendLoop, List.map_cons, List.sum_cons]
    omega

theorem sendLoop_eq (outcome : Nat → Bool) (bs : List (List String)) :
    ∀ i, sendLoop outcome i bs =
      ((((List.enumFrom i bs).filter (fun p => outcome p.1)).map
          (fun p => p.2.length)).sum,
       (((List.enumFrom i bs).filter (fun p => !outcome p.1)).map
          (fun p => p.2.length)).sum,
       (((List.enumFrom i bs).filter (fun p => !outcome p.1)).map Prod.snd).flatten) := by
  induction bs with
  | nil => intro i; simp [sendLoop, List.enumFrom]
  | cons batch rest ih =>
    intro i
    simp only [sendLoop, List.enumFrom, List.filter_cons, ih (i + 1)]
    cases h : outcome i <;> simp [sendBatch, h]

theorem mem_enumFrom_getD (bs : List (List String)) :
    ∀ (i k : Nat), k < bs.length → (i + k, bs.getD k []) ∈ List.enumFrom i bs := by
  induction bs with
  | nil => intro i k h; simp at h
  | cons b rest ih =>
    intro i k h
    cases k with
    | zero => simp [List.enumFrom]
    | succ k =>
      have hmem := ih (i + 1) k (by simp only [List.length_cons] at h; omega)
      simp only [List.enumFrom, List.getD_cons_succ, List.mem_cons]
      right
      have harith : i + (k + 1) = i + 1 + k := by omega
      rw [harith]
      exact hmem

/-- C2 per-run invariant: sent + failed equals the number of recipients, for
every pattern of per-batch outcomes; and per-batch, the two counters of
`_send_batch` always sum to the batch size. -/
theorem sendNewsletter_conservation (outcome : Nat → Bool) (rs : List String) :
    (sendNewsletter outcome rs).sent + (sendNewsletter outcome rs).failed
        = (sendNewsletter outcome rs).total_recipients ∧
    (∀ (ok : Bool) (batch : List String),
        (sendBatch ok batch).sent + (sendBatch ok batch).failed = batch.length) := by
  constructor
  · show (sendLoop outcome 0 (createBatches rs 50)).1
        + (sendLoop outcome 0 (createBatches rs 50)).2.1 = rs.length
    rw [sendLoop_total outcome (createBatches rs 50) 0]
    rw [← List.length_flatten, createBatches_join rs 49]
  · exact sendBatch_total

/-- C3: a batch whose send raises is wholly recorded in `failed_emails`, its
size is charged to `failed`, and every batch is still processed; the
120-recipient scenario of the spec with batch 2 failing yields sent=70, failed=50,
`failed_emails` exactly the 50 addresses of batch 2, over 3 processed
batches. -/
theorem sendNewsletter_failed_batch
    (outcome : Nat → Bool) (rs : List String) (i : Nat)
    (hi : i < (createBatches rs 50).length) (hfail : outcome i = false) :
    (∀ x ∈ (createBatches rs 50).getD i [],
        x ∈ (sendNewsletter outcome rs).failed_emails) ∧
    ((createBatches rs 50).getD i []).length ≤ (sendNewsletter outcome rs).failed ∧
    (sendNewsletter outcome rs).batches_processed = (createBatches rs 50).length ∧
    (sendNewsletter scenarioOutcome recipients120).sent = 70 ∧
    (sendNewsletter scenarioOutcome recipients120).failed = 50 ∧
    (sendNewsletter scenarioOutcome recipients120).failed_emails
        = (recipients120.drop 50).take 50 ∧
    (sendNewsletter scenarioOutcome recipients120).batches_processed = 3 := by
  have hmem : (i, (createBatches rs 50).getD i []) ∈
      List.enumFrom 0 (createBatches rs 50) := by
    have := mem_enumFrom_getD (createBatches rs 50) 0 i hi
    simpa using this
  have hfiltered : (i, (createBatches rs 50).getD i []) ∈
      (List.enumFrom 0 (createBatches rs 50)).filter (fun p => !outcome p.1) := by
    apply List.mem_filter.mpr
    exact ⟨hmem, by simp [hfail]⟩
  refine ⟨?_, ?_, rfl, by decide, by decide, by decide, by decide⟩
  · intro x hx
    show x ∈ (sendLoop outcome 0 (createBatches rs 50)).2.2
    rw [sendLoop_eq outcome (createBatches rs 50) 0]
    apply List.mem_flatten.mpr
    exact ⟨(createBatches rs 50).getD i [],
           List.mem_map.mpr ⟨_, hfiltered, rfl⟩, hx⟩
  · show _ ≤ (sendLoop outcome 0 (createBatches rs 50)).2.1
    rw [sendLoop_eq outcome (createBatches rs 50) 0]
    exact List.single_le_sum (fun x _ => Nat.zero_le x) _
      (List.mem_map.mpr ⟨_, hfiltered, rfl⟩)

theorem sendNewsletter_failed_batch_witness :
    (∀ x ∈ (createBatches ["a@x.com", "b@x.com"] 50).getD 0 [],
        x ∈ (sendNewsletter (fun _ => false) ["a@x.com", "b@x.com"]).failed_emails) ∧
    ((createBatches ["a@x.com", "b@x.com"] 50).getD 0 []).length
        ≤ (sendNewsletter (fun _ => false) ["a@x.com", "b@x.com"]).failed ∧
    (sendNewsletter (fun _ => false) ["a@x.com", "b@x.com"]).batches_processed
        = (createBatches ["a@x.com", "b@x.com"] 50).length ∧
    (sendNewsletter scenarioOutcome recipients120).sent = 70 ∧
    (sendNewsletter scenarioOutcome recipients120).failed = 50 ∧
    (sendNewsletter scenarioOutcome recipients120).failed_emails
        = (recipients120.drop 50).take 50 ∧
    (sendNewsletter scenarioOutcome recipients120).batches_processed = 3 :=
  sendNewsletter_failed_batch (fun _ => false) ["a@x.com", "b@x.com"] 0
    (by decide) rfl

/-- C4: the success rate is `sent / total_recipients * 100` for a non-empty
recipient list and `0` for the empty list (no division by zero occurs). -/
theorem sendNewsletter_success_rate (outcome : Nat → Bool) (rs : List String) :
    ((sendNewsletter outcome rs).total_recipients = 0 →
        (sendNewsletter outcome rs).success_rate = 0) ∧
    ((sendNewsletter outcome rs).total_recipients ≠ 0 →
        (sendNewsletter outcome rs).success_rate
          = ((sendNewsletter outcome rs).sent : Rat)
            / ((sendNewsletter outcome rs).total_recipients : Rat) * 100) := by
  constructor
  · intro h
    have hlen : rs.length = 0 := h
    have hnil : rs = [] := List.eq_nil_of_length_eq_zero hlen
    subst hnil
    rfl
  · intro h
    have hne : rs.isEmpty = false := by
      cases rs with
      | nil => exact absurd rfl h
      | cons a l => rfl
    show (if rs.isEmpty then (0 : Rat)
          else ((sendLoop outcome 0 (createBatches rs 50)).1 : Rat)
                / (rs.length : Rat) * 100)
        = ((sendLoop outcome 0 (createBatches rs 50)).1 : Rat)
            / (rs.length : Rat) * 100
    rw [hne]
    simp

theorem sendNewsletter_success_rate_witness :
    (sendNewsletter (fun _ => true) []).success_rate = 0 ∧
    (sendNewsletter (fun _ => true) ["a@x.com"]).success_rate
      = ((sendNewsletter (fun _ => true) ["a@x.com"]).sent : Rat)
        / ((sendNewsletter (fun _ => true) ["a@x.com"]).total_recipients : Rat) * 100 :=
  ⟨(sendNewsletter_success_rate (fun _ => true) []).1 rfl,
   (sendNewsletter_success_rate (fun _ => true) ["a@x.com"]).2 (by decide)⟩

end Mailer

namespace ContentGen

set_option maxRecDepth 4096 in
theorem wrap_length_pos (subject content : String) :
    0 < (wrap_in_email_template subject content).length := by
  have h1 : 0 < HTML_EMAIL_TEMPLATE_seg1.length := by decide
  unfold wrap_in_email_template
  simp only [String.length_append]
  omega

theorem wrap_ne_empty (subject content : String) :
    wrap_in_email_template subject content ≠ "" := by
  intro h
  have hlen := wrap_length_pos subject content
  rw [h] at hlen
  simp at hlen

/-- C5 (amended): the generator is total over every modelled backend
behaviour and always returns a result carrying both the `subject` and the
`html` fields, with `html` non-empty (it is always produced by wrapping in
the HTML e-mail template); the `subject` value, however, can be empty — see
the counterexample theorem. -/
theorem generate_html_nonempty (b : BackendBehaviour) (current_date : String) :
    (generate_newsletter_content b current_date).html ≠ "" := by
  cases b with
  | unreachable => exact wrap_ne_empty _ _
  | httpStatus code => exact wrap_ne_empty _ _
  | bodyNotJson => exact wrap_ne_empty _ _
  | contentNotJson content => exact wrap_ne_empty _ _
  | contentJson hs hh s h =>
    unfold generate_newsletter_content
    cases hs <;> cases hh <;> simp <;> exact wrap_ne_empty _ _

/-- C5 counterexample: a backend that answers HTTP 200 with the body
`\x7b"response": "Subject:"\x7d` — malformed (non-JSON) generated content, one
of the behaviours the claim itself enumerates — ends in
`_extract_content_from_text("Subject:")`, whose keyword scan matches the
bare `Subject:` line and strips it to the empty string: the returned
`subject` is `""`, refuting "both ... non-empty". -/
theorem generate_subject_empty_cex :
    (generate_newsletter_content
        (BackendBehaviour.contentNotJson "Subject:") "October 12, 2025").subject
      = "" := by
  decide

end ContentGen

namespace Backend

theorem length_updateFirst (f : SubscriberRow → SubscriberRow) :
    ∀ (db : List SubscriberRow) (email : String),
      (updateFirst f db email).length = db.length := by
  intro db email
  induction db with
  | nil => rfl
  | cons r rest ih =>
    rw [updateFirst]
    by_cases h : (r.email == email) = true
    · simp [h]
    · simp only [Bool.not_eq_true] at h
      simp [h, ih]

theorem find?_updateFirst (f : SubscriberRow → SubscriberRow)
    (hf : ∀ r, (f r).email = r.email) :
    ∀ (db : List SubscriberRow) (email : String),
      get_subscriber_by_email (updateFirst f db email) email
        = (get_subscriber_by_email db email).map f := by
  intro db email
  induction db with
  | nil => rfl
  | cons r rest ih =>
    rw [updateFirst]
    by_cases h : (r.email == email) = true
    · have hfr : ((f r).email == email) = true := by
        rw [hf r]; exact h
      simp [get_subscriber_by_email, List.find?, h, hfr]
    · simp only [Bool.not_eq_true] at h
      simp only [h, if_false]
      simp only [get_subscriber_by_email, List.find?, h] at ih ⊢
      exact ih

theorem mem_updateFirst (f : SubscriberRow → SubscriberRow) :
    ∀ (db : List SubscriberRow) (email : String),
      ∀ x ∈ updateFirst f db email, x ∈ db ∨ ∃ r, r ∈ db ∧ x = f r := by
  intro db email
  induction db with
  | nil => intro x hx; simp [updateFirst] at hx
  | cons r rest ih =>
    intro x hx
    rw [updateFirst] at hx
    by_cases h : (r.email == email) = true
    · rw [if_pos h] at hx
      rcases List.mem_cons.mp hx with h1 | h2
      · exact Or.inr ⟨r, List.mem_cons_self r rest, h1⟩
      · exact Or.inl (List.mem_cons_of_mem r h2)
    · rw [if_neg h] at hx
      rcases List.mem_cons.mp hx with h1 | h2
      · exact Or.inl (h1 ▸ List.mem_cons_self r rest)
      · rcases ih x h2 with h3 | ⟨s, hs, hx⟩
        · exact Or.inl (List.mem_cons_of_mem r h3)
        · exact Or.inr ⟨s, List.mem_cons_of_mem r hs, hx⟩

/-- C6: `create_subscriber` on an `active` row fails with a message
containing "already subscribed"; on an `unsubscribed` row it reactivates in
place (status `active`, `updated_at` refreshed), returns that row, and the
row count is unchanged; on a fresh email it appends one new `active` row. -/
theorem create_subscriber_spec (db : List SubscriberRow) (email : String) (now : Nat) :
    (∀ r, get_subscriber_by_email db email = some r → r.status = "active" →
        ∃ msg, create_subscriber db email now = .error msg ∧
               containsSub msg "already subscribed" = true) ∧
    (∀ r, get_subscriber_by_email db email = some r → r.status = "unsubscribed" →
        ∃ db2, create_subscriber db email now
            = .ok (db2, { r with status := "active", updated_at := now }) ∧
          db2.length = db.length ∧
          get_subscriber_by_email db2 email
            = some { r with status := "active", updated_at := now }) ∧
    (get_subscriber_by_email db email = none →
        create_subscriber db email now
          = .ok (db ++ [{ email := email, status := "active",
                          created_at := now, updated_at := now }],
                 { email := email, status := "active",
                   created_at := now, updated_at := now })) := by
  refine ⟨?_, ?_, ?_⟩
  · intro r hr hst
    refine ⟨"Email already subscribed", ?_, by decide⟩
    simp [create_subscriber, hr, hst]
  · intro r hr hst
    refine ⟨updateFirst (fun x => { x with status := "active", updated_at := now }) db email,
            ?_, length_updateFirst _ db email, ?_⟩
    · simp [create_subscriber, hr, hst]
    · rw [find?_updateFirst (fun x => { x with status := "active", updated_at := now })
            (fun x => rfl) db email, hr]
      rfl
  · intro hnone
    simp [create_subscriber, hnone]

theorem create_subscriber_spec_witness :
    (∃ msg, create_subscriber [⟨"a@x.com", "active", 0, 0⟩] "a@x.com" 5 = .error msg ∧
            containsSub msg "already subscribed" = true) ∧
    (∃ db2, create_subscriber [⟨"b@x.com", "unsubscribed", 0, 0⟩] "b@x.com" 7
          = .ok (db2, ⟨"b@x.com", "active", 0, 7⟩) ∧
        db2.length = 1 ∧
        get_subscriber_by_email db2 "b@x.com" = some ⟨"b@x.com", "active", 0, 7⟩) ∧
    create_subscriber [] "c@x.com" 9
        = .ok ([⟨"c@x.com", "active", 9, 9⟩], ⟨"c@x.com", "active", 9, 9⟩) :=
  ⟨(create_subscriber_spec [⟨"a@x.com", "active", 0, 0⟩] "a@x.com" 5).1
      ⟨"a@x.com", "active", 0, 0⟩ rfl rfl,
   (create_subscriber_spec [⟨"b@x.com", "unsubscribed", 0, 0⟩] "b@x.com" 7).2.1
      ⟨"b@x.com", "unsubscribed", 0, 0⟩ rfl rfl,
   (create_subscriber_spec [] "c@x.com" 9).2.2 rfl⟩

/-- C7: `unsubscribe_subscriber` fails with "not found" when no row exists,
fails with "already unsubscribed" when the row is already `unsubscribed`,
otherwise flips the first matching row to `unsubscribed`; and after a
successful unsubscribe, unsubscribing the same email again always fails with
"already unsubscribed". -/
theorem unsubscribe_spec (db : List SubscriberRow) (email : String) (now : Nat) :
    (get_subscriber_by_email db email = none →
        ∃ msg, unsubscribe_subscriber db email now = .error msg ∧
               containsSub msg "not found" = true) ∧
    (∀ r, get_subscriber_by_email db email = some r → r.status = "unsubscribed" →
        ∃ msg, unsubscribe_subscriber db email now = .error msg ∧
               containsSub msg "already unsubscribed" = true) ∧
    (∀ r, get_subscriber_by_email db email = some r → r.status ≠ "unsubscribed" →
        unsubscribe_subscriber db email now
          = .ok (updateFirst
                  (fun x => { x with status := "unsubscribed", updated_at := now })
                  db email) ∧
        get_subscriber_by_email
            (updateFirst (fun x => { x with status := "unsubscribed", updated_at := now })
              db email) email
          = some { r with status := "unsubscribed", updated_at := now }) ∧
    (∀ db2, unsubscribe_subscriber db email now = .ok db2 →
        ∀ now2, ∃ msg, unsubscribe_subscriber db2 email now2 = .error msg ∧
               containsSub msg "already unsubscribed" = true) := by
  refine ⟨?_, ?_, ?_, ?_⟩
  · intro hnone
    refine ⟨"Email not found in subscriber list", ?_, by decide⟩
    simp [unsubscribe_subscriber, hnone]
  · intro r hr hst
    refine ⟨"Email already unsubscribed", ?_, by decide⟩
    simp [unsubscribe_subscriber, hr, hst]
  · intro r hr hst
    have hcond : ¬ ((r.status == "unsubscribed") = true) := by
      intro hc
      exact hst (by simpa using hc)
    constructor
    · simp only [unsubscribe_subscriber, hr]
      rw [if_neg hcond]
    · rw [find?_updateFirst (fun x => { x with status := "unsubscribed", updated_at := now })
            (fun x => rfl) db email, hr]
      rfl
  · intro db2 hok now2
    refine ⟨"Email already unsubscribed", ?_, by decide⟩
    simp only [unsubscribe_subscriber] at hok ⊢
    split at hok
    · exact absurd hok (by simp)
    · rename_i r hfind
      split at hok
      · exact absurd hok (by simp)
      · have hdb2 : db2 = updateFirst
            (fun x => { x with status := "unsubscribed", updated_at := now }) db email := by
          cases hok
          rfl
        subst hdb2
        rw [find?_updateFirst (fun x => { x with status := "unsubscribed", updated_at := now })
              (fun x => rfl) db email, hfind]
        rfl

theorem unsubscribe_spec_witness :
    (∃ msg, unsubscribe_subscriber [] "a@x.com" 3 = .error msg ∧
            containsSub msg "not found" = true) ∧
    (∃ msg, unsubscribe_subscriber [⟨"a@x.com", "unsubscribed", 0, 0⟩] "a@x.com" 3
          = .error msg ∧ containsSub msg "already unsubscribed" = true) ∧
    (∃ msg, unsubscribe_subscriber [⟨"a@x.com", "unsubscribed", 0, 4⟩] "a@x.com" 9
          = .error msg ∧ containsSub msg "already unsubscribed" = true) :=
  ⟨(unsubscribe_spec [] "a@x.com" 3).1 rfl,
   (unsubscribe_spec [⟨"a@x.com", "unsubscribed", 0, 0⟩] "a@x.com" 3).2.1
      ⟨"a@x.com", "unsubscribed", 0, 0⟩ rfl rfl,
   (unsubscribe_spec [⟨"a@x.com", "active", 0, 0⟩] "a@x.com" 4).2.2.2
      [⟨"a@x.com", "unsubscribed", 0, 4⟩] rfl 9⟩

theorem statusOk_updateFirst (db : List SubscriberRow) (h : statusOk db)
    (f : SubscriberRow → SubscriberRow)
    (hf : ∀ r, (f r).status = "active" ∨ (f r).status = "unsubscribed")
    (email : String) : statusOk (updateFirst f db email) := by
  intro x hx
  rcases mem_updateFirst f db email x hx with h1 | ⟨r, _, hfr⟩
  · exact h x h1
  · rw [hfr]
    exact hf r

theorem statusOk_applyOp (db : List SubscriberRow) (h : statusOk db) (op : StoreOp) :
    statusOk (applyOp db op) := by
  cases op with
  | create email now =>
    show statusOk (match create_subscriber db email now with
      | .ok (db2, _) => db2
      | .error _ => db)
    unfold create_subscriber
    cases hfind : get_subscriber_by_email db email with
    | none =>
      intro x hx
      rcases List.mem_append.mp hx with h1 | h2
      · exact h x h1
      · simp only [List.mem_singleton] at h2
        rw [h2]
        exact Or.inl rfl
    | some existing =>
      dsimp only
      by_cases hst : (existing.status == "unsubscribed") = true
      · rw [if_pos hst]
        exact statusOk_updateFirst db h _ (fun r => Or.inl rfl) email
      · rw [if_neg hst]
        exact h
  | unsub email now =>
    show statusOk (match unsubscribe_subscriber db email now with
      | .ok db2 => db2
      | .error _ => db)
    unfold unsubscribe_subscriber
    cases hfind : get_subscriber_by_email db email with
    | none => exact h
    | some subscriber =>
      dsimp only
      by_cases hst : (subscriber.status == "unsubscribed") = true
      · rw [if_pos hst]
        exact h
      · rw [if_neg hst]
        exact statusOk_updateFirst db h _ (fun r => Or.inr rfl) email

theorem statusOk_foldl (ops : List StoreOp) :
    ∀ db, statusOk db → statusOk (ops.foldl applyOp db) := by
  induction ops with
  | nil => intro db h; exact h
  | cons op rest ih =>
    intro db h
    exact ih (applyOp db op) (statusOk_applyOp db h op)

theorem counts_partition (db : List SubscriberRow) (h : statusOk db) :
    (get_subscriber_count db).active + (get_subscriber_count db).unsubscribed
      = (get_subscriber_count db).total := by
  induction db with
  | nil => rfl
  | cons r rest ih =>
    have hr := h r (List.mem_cons_self r rest)
    have hrest := ih (fun x hx => h x (List.mem_cons_of_mem r hx))
    simp only [get_subscriber_count, List.filter_cons, List.length_cons] at hrest ⊢
    rcases hr with h1 | h1 <;>
      simp only [h1] <;> simp <;> omega

/-- C9: in every store state reachable from the empty table by
`create_subscriber` / `unsubscribe_subscriber` calls, every row status is
`active` or `unsubscribed`, hence the `get_subscriber_count` statistics
always satisfy active + unsubscribed = total. -/
theorem reachable_status_invariant (ops : List StoreOp) :
    (∀ r ∈ runOps ops, r.status = "active" ∨ r.status = "unsubscribed") ∧
    (get_subscriber_count (runOps ops)).active
        + (get_subscriber_count (runOps ops)).unsubscribed
      = (get_subscriber_count (runOps ops)).total := by
  have hok : statusOk (runOps ops) :=
    statusOk_foldl ops [] (fun r hr => absurd hr (List.not_mem_nil r))
  exact ⟨hok, counts_partition (runOps ops) hok⟩

theorem reachable_status_invariant_witness :
    (⟨"a@x.com", "active", 0, 0⟩ : SubscriberRow).status = "active" ∨
    (⟨"a@x.com", "active", 0, 0⟩ : SubscriberRow).status = "unsubscribed" :=
  (reachable_status_invariant [StoreOp.create "a@x.com" 0]).1
    ⟨"a@x.com", "active", 0, 0⟩ (by decide)

end Backend

namespace Orch

open Backend

theorem main_run_fail_shape (env : OrchEnv) (latency : Nat) :
    (main_run env latency).exitCode ≠ 0 →
    ∃ e, main_run env latency = { logs := [failure_log e], exitCode := 1 } := by
  intro hne
  unfold main_run at hne ⊢
  cases hv : validate_environment env with
  | error e => exact ⟨e, rfl⟩
  | ok u =>
    rw [hv] at hne
    cases hf : get_active_subscribers env.fetch_outcome with
    | error e => exact ⟨e, rfl⟩
    | ok recipients =>
      rw [hf] at hne
      dsimp only at hne ⊢
      by_cases hrec : recipients.isEmpty
      · rw [if_pos hrec] at hne
        exact absurd rfl hne
      · rw [if_neg hrec] at hne ⊢
        cases hc : generate_content_step env.content_outcome with
        | error e => exact ⟨e, rfl⟩
        | ok content =>
          rw [hc] at hne
          dsimp only at hne
          cases hs : send_step env.send_outcome with
          | error e => exact ⟨e, rfl⟩
          | ok stats =>
            rw [hs] at hne
            dsimp only at hne
            exact absurd rfl hne

/-- C8: whenever `main` exits with a non-zero status, and for each of the
four fallible stages individually (configuration validation, subscriber
fetch, content generation, mailing), the run persists exactly one SendLog
row with `sent_count = 0` and the exception message as `error_details`, and
terminates with exit status 1. -/
theorem main_failure_handling (env : OrchEnv) (latency : Nat) :
    ((main_run env latency).exitCode ≠ 0 →
      ∃ e, (main_run env latency).logs = [failure_log e] ∧
           (failure_log e).sent_count = 0 ∧
           (failure_log e).error_details = some e ∧
           (main_run env latency).exitCode = 1) ∧
    (∀ e, validate_environment env = .error e →
        main_run env latency = { logs := [failure_log e], exitCode := 1 }) ∧
    (validate_environment env = .ok () →
      ∀ e, get_active_subscribers env.fetch_outcome = .error e →
        main_run env latency = { logs := [failure_log e], exitCode := 1 }) ∧
    (validate_environment env = .ok () →
      ∀ subs, get_active_subscribers env.fetch_outcome = .ok subs →
        subs.isEmpty = false →
      ∀ e, generate_content_step env.content_outcome = .error e →
        main_run env latency = { logs := [failure_log e], exitCode := 1 }) ∧
    (validate_environment env = .ok () →
      ∀ subs, get_active_subscribers env.fetch_outcome = .ok subs →
        subs.isEmpty = false →
      ∀ c, generate_content_step env.content_outcome = .ok c →
      ∀ e, send_step env.send_outcome = .error e →
        main_run env latency = { logs := [failure_log e], exitCode := 1 }) := by
  refine ⟨?_, ?_, ?_, ?_, ?_⟩
  · intro hne
    rcases main_run_fail_shape env latency hne with ⟨e, he⟩
    exact ⟨e, by rw [he], rfl, rfl, by rw [he]⟩
  · intro e hv
    simp [main_run, hv]
  · intro hv e hf
    simp [main_run, hv, hf]
  · intro hv subs hf hsubs e hc
    simp [main_run, hv, hf, hsubs, hc]
  · intro hv subs hf hsubs c hc e hs
    simp [main_run, hv, hf, hsubs, hc, hs]

theorem main_failure_handling_witness :
    main_run { smtp_email_set := true, smtp_password_set := true,
               fetch_outcome := .error "db down",
               content_outcome := .ok ("s", "h"),
               send_outcome := .ok { total_recipients := 0, sent := 0, failed := 0,
                                     success_rate := 0, failed_emails := [],
                                     batches_processed := 0 } } 0
      = { logs := [failure_log "Failed to fetch subscribers: db down"], exitCode := 1 } :=
  (main_failure_handling
      { smtp_email_set := true, smtp_password_set := true,
        fetch_outcome := .error "db down",
        content_outcome := .ok ("s", "h"),
        send_outcome := .ok { total_recipients := 0, sent := 0, failed := 0,
                              success_rate := 0, failed_emails := [],
                              batches_processed := 0 } } 0).2.2.1
    rfl "Failed to fetch subscribers: db down" rfl

theorem stats_append_zero_row (prior : List SendLogRow) (row : SendLogRow)
    (h1 : row.sent_count = 0) (h2 : row.failures = 0) :
    (get_send_statistics (prior ++ [row])).total_sent
        = (get_send_statistics prior).total_sent ∧
    (get_send_statistics (prior ++ [row])).total_failures
        = (get_send_statistics prior).total_failures ∧
    (get_send_statistics (prior ++ [row])).success_rate
        = (get_send_statistics prior).success_rate := by
  cases prior with
  | nil =>
    simp [get_send_statistics, h1, h2]
  | cons p rest =>
    have hs : (((p :: rest) ++ [row]).map (fun log => log.sent_count)).sum
        = ((p :: rest).map (fun log => log.sent_count)).sum := by
      rw [List.map_append, List.sum_append]
      simp [h1]
    have hfl : (((p :: rest) ++ [row]).map (fun log => log.failures)).sum
        = ((p :: rest).map (fun log => log.failures)).sum := by
      rw [List.map_append, List.sum_append]
      simp [h2]
    have hne1 : ¬ ((((p :: rest) ++ [row]).isEmpty) = true) := by simp
    have hne2 : ¬ (((p :: rest : List SendLogRow).isEmpty) = true) := by simp
    simp only [get_send_statistics]
    rw [if_neg hne1, if_neg hne2, hs, hfl]
    exact ⟨rfl, rfl, rfl⟩

/-- C10: the failure row persisted on a whole-run failure carries
`failures = 0` as well as `sent_count = 0`, so appending it to any existing
`send_logs` table leaves `total_sent`, `total_failures` and the derived
`success_rate` of `get_send_statistics` unchanged. -/
theorem failure_log_neutral (env : OrchEnv) (latency : Nat)
    (prior : List SendLogRow) :
    (main_run env latency).exitCode ≠ 0 →
    ∃ e, (main_run env latency).logs = [failure_log e] ∧
      (failure_log e).sent_count = 0 ∧
      (failure_log e).failures = 0 ∧
      (get_send_statistics (prior ++ [failure_log e])).total_sent
        = (get_send_statistics prior).total_sent ∧
      (get_send_statistics (prior ++ [failure_log e])).total_failures
        = (get_send_statistics prior).total_failures ∧
      (get_send_statistics (prior ++ [failure_log e])).success_rate
        = (get_send_statistics prior).success_rate := by
  intro hne
  rcases main_run_fail_shape env latency hne with ⟨e, he⟩
  rcases stats_append_zero_row prior (failure_log e) rfl rfl with ⟨hs, hf, hr⟩
  exact ⟨e, by rw [he], rfl, rfl, hs, hf, hr⟩

theorem failure_log_neutral_witness :
    ∃ e, (main_run { smtp_email_set := false, smtp_password_set := true,
                     fetch_outcome := .ok [],
                     content_outcome := .ok ("s", "h"),
                     send_outcome := .error "smtp" } 0).logs = [failure_log e] ∧
      (failure_log e).sent_count = 0 ∧
      (failure_log e).failures = 0 ∧
      (get_send_statistics ([{ sent_count := 40, failures := 10, latency_ms := 5,
                               error_details := none, newsletter_subject := none }]
            ++ [failure_log e])).total_sent
        = (get_send_statistics [{ sent_count := 40, failures := 10, latency_ms := 5,
                                  error_details := none, newsletter_subject := none }]).total_sent ∧
      (get_send_statistics ([{ sent_count := 40, failures := 10, latency_ms := 5,
                               error_details := none, newsletter_subject := none }]
            ++ [failure_log e])).total_failures
        = (get_send_statistics [{ sent_count := 40, failures := 10, latency_ms := 5,
                                  error_details := none, newsletter_subject := none }]).total_failures ∧
      (get_send_statistics ([{ sent_count := 40, failures := 10, latency_ms := 5,
                               error_details := none, newsletter_subject := none }]
            ++ [failure_log e])).success_rate
        = (get_send_statistics [{ sent_count := 40, failures := 10, latency_ms := 5,
                                  error_details := none, newsletter_subject := none }]).success_rate :=
  failure_log_neutral
    { smtp_email_set := false, smtp_password_set := true,
      fetch_outcome := .ok [],
      content_outcome := .ok ("s", "h"),
      send_outcome := .error "smtp" } 0
    [{ sent_count := 40, failures := 10, latency_ms := 5,
       error_details := none, newsletter_subject := none }]
    (by decide)

end Orch
